import Mathlib

/-!
# Verification of `packages/discord.js/src/util/Channels.js`

Shallow embedding of the channel factory (`createChannel`) and the four
schema transcoder functions (`transformAPIGuildForumTag`,
`transformGuildForumTag`, `transformAPIGuildDefaultReaction`,
`transformGuildDefaultReaction`).

Modelling conventions:
* JS `null`/`undefined` fields become `Option _` with `none` for the
  nullish values; snowflake identifiers become `Nat` (they are nonempty
  numeric strings on the wire, hence always truthy).
* The JS caches (`client.guilds.cache`, `guild.channels.cache`,
  `parent.threads.cache`) are JS `Map`s; they are embedded as association
  lists `List (Nat × _)` with `Map.get`/`Map.set` semantics (`set`
  overwrites in place, otherwise appends).
* In-place mutation of the resolved guild object is embedded by explicit
  state passing: `createChannel` returns the constructed channel together
  with the updated client and the updated supplied guild.
-/

namespace DiscordJS

/-! ## ChannelType enumeration (numeric values of discord-api-types/v10) -/

namespace ChannelType

def GuildText : Nat := 0

def DM : Nat := 1

def GuildVoice : Nat := 2

def GroupDM : Nat := 3

def GuildCategory : Nat := 4

def GuildAnnouncement : Nat := 5

def AnnouncementThread : Nat := 10

def PublicThread : Nat := 11

def PrivateThread : Nat := 12

def GuildStageVoice : Nat := 13

def GuildDirectory : Nat := 14

def GuildForum : Nat := 15

def GuildMedia : Nat := 16

end ChannelType

/-! ## Schema transcoder (Channels.js lines 96–153) -/

/-- Wire shape of a forum tag: `{id, name, moderated, emoji_id, emoji_name}`
(`emoji_id`/`emoji_name` nullable). -/
structure APIGuildForumTag where
  id : Nat
  name : String
  moderated : Bool
  emoji_id : Option Nat
  emoji_name : Option String
deriving DecidableEq, Repr

/-- The nested `emoji` sub-object of the application-shaped forum tag. -/
structure GuildForumTagEmoji where
  id : Option Nat
  name : Option String
deriving DecidableEq, Repr

/-- Application shape of a forum tag: `{id, name, moderated, emoji | null}`. -/
structure GuildForumTag where
  id : Nat
  name : String
  moderated : Bool
  emoji : Option GuildForumTagEmoji
deriving DecidableEq, Repr

/-- Lines 96–109. The JS guard `(tag.emoji_id ?? tag.emoji_name)` is truthy
iff at least one of the two fields is non-null (snowflakes and emoji names
are nonempty strings, so a present value is truthy). -/
def transformAPIGuildForumTag (tag : APIGuildForumTag) : GuildForumTag :=
  { id := tag.id
    name := tag.name
    moderated := tag.moderated
    emoji :=
      if tag.emoji_id.isSome ∨ tag.emoji_name.isSome then
        some { id := tag.emoji_id, name := tag.emoji_name }
      else
        none }

/-- Lines 117–125. `tag.emoji?.id ?? null` is `Option.bind` on the nested
object. -/
def transformGuildForumTag (tag : GuildForumTag) : APIGuildForumTag :=
  { id := tag.id
    name := tag.name
    moderated := tag.moderated
    emoji_id := tag.emoji.bind fun e => e.id
    emoji_name := tag.emoji.bind fun e => e.name }

/-! ## Channel factory (Channels.js lines 34–88) -/

/-- `Map.get` on an association-list cache. -/
def alGet {α : Type} (c : List (Nat × α)) (k : Nat) : Option α :=
  match c with
  | [] => none
  | (k', v) :: rest => if k' = k then some v else alGet rest k

/-- `Map.set` on an association-list cache: overwrite in place, else append. -/
def alSet {α : Type} (c : List (Nat × α)) (k : Nat) (v : α) : List (Nat × α) :=
  match c with
  | [] => [(k, v)]
  | (k', v') :: rest => if k' = k then (k, v) :: rest else (k', v') :: alSet rest k v

/-- Mutation of the object stored under key `k` (the embedding of mutating,
through a reference obtained by `Map.get`, the value held in the cache). -/
def alUpdate {α : Type} (c : List (Nat × α)) (k : Nat) (f : α → α) : List (Nat × α) :=
  match c with
  | [] => []
  | (k', v') :: rest => if k' = k then (k', f v') :: rest else (k', v') :: alUpdate rest k f

/-- Which concrete channel class a constructed instance belongs to.
`groupDM` stands for the `PartialGroupDMChannel` class; the three thread
discriminators all construct the `ThreadChannel` class (`thread`). -/
inductive ChannelKind : Type where
  | text
  | voice
  | category
  | announcement
  | stage
  | thread
  | directory
  | forum
  | media
  | dm
  | groupDM
deriving DecidableEq, Repr

/-- A constructed channel instance.  `threads` is the thread cache
(`channel.threads.cache`) carried by parent-capable channels. -/
inductive Channel : Type where
  | mk (kind : ChannelKind) (id : Nat) (type : Nat) (parent_id : Option Nat)
      (threads : List (Nat × Channel)) : Channel

def Channel.kind : Channel → ChannelKind
  | .mk k _ _ _ _ => k

def Channel.id : Channel → Nat
  | .mk _ i _ _ _ => i

def Channel.type : Channel → Nat
  | .mk _ _ t _ _ => t

def Channel.parent_id : Channel → Option Nat
  | .mk _ _ _ p _ => p

def Channel.threads : Channel → List (Nat × Channel)
  | .mk _ _ _ _ th => th

/-- Replace the thread cache of a channel (the embedding of
`parent.threads.cache.set` mutating the parent in place). -/
def Channel.setThreads : Channel → List (Nat × Channel) → Channel
  | .mk k i t p _, th => .mk k i t p th

/-- Wire payload of a channel (`APIChannel`): discriminator `type`,
identifier, and the variant-dependent fields the factory reads.
`recipients := some _` embeds a present `recipients` array (a JS array is
truthy even when empty); `none` embeds an absent field. -/
structure APIChannel where
  id : Nat
  type : Nat
  guild_id : Option Nat := none
  recipients : Option (List Nat) := none
  parent_id : Option Nat := none
deriving DecidableEq, Repr

/-- A guild: `channels` is `guild.channels?.cache` — `none` when the guild
does not expose the channel-cache capability (the `?.` at line 84). -/
structure Guild where
  id : Nat
  channels : Option (List (Nat × Channel))

/-- The client: `guilds` is `client.guilds.cache`. -/
structure Client where
  guilds : List (Nat × Guild)

/-- The options bag (`extras`).  Line 34 destructures only
`allowUnknownGuild`; the field `allowFromUnknownGuild` is the name the
doc comment (lines 18–23) uses, carried here so that bags mentioning it
are representable.  `none` embeds an absent key. -/
structure CreateChannelOptions where
  allowUnknownGuild : Option Bool := none
  allowFromUnknownGuild : Option Bool := none
deriving DecidableEq, Repr

/-- Modelled from the spec: the eleven guild-scoped variant constructors and
the two user-scoped ones live in `../structures/*` (not under `src/`); per
§6 each accepts `(owner-context, rawData)` and returns an instance exposing
`id` from the payload, and, for threads, a `parent` relation driven by the
payload's `parent_id`.  A fresh instance has an empty thread cache. -/
def construct (kind : ChannelKind) (data : APIChannel) : Channel :=
  .mk kind data.id data.type data.parent_id []

/-- The switch of lines 46–83 as a map from discriminator to the class
constructed; `none` for discriminators with no case (e.g. DM(1), GroupDM(3)
and unknown values). -/
def guildVariantOf (t : Nat) : Option ChannelKind :=
  if t = ChannelType.GuildText then some .text
  else if t = ChannelType.GuildVoice then some .voice
  else if t = ChannelType.GuildCategory then some .category
  else if t = ChannelType.GuildAnnouncement then some .announcement
  else if t = ChannelType.GuildStageVoice then some .stage
  else if t = ChannelType.AnnouncementThread ∨ t = ChannelType.PublicThread
      ∨ t = ChannelType.PrivateThread then some .thread
  else if t = ChannelType.GuildDirectory then some .directory
  else if t = ChannelType.GuildForum then some .forum
  else if t = ChannelType.GuildMedia then some .media
  else none

/-- The three discriminators of the shared thread case (lines 67–69). -/
def isThreadType (t : Nat) : Bool :=
  t == ChannelType.AnnouncementThread || t == ChannelType.PublicThread
    || t == ChannelType.PrivateThread

/-- Line 43: `guild ??= client.guilds.cache.get(data.guild_id)`. -/
def resolveGuild (client : Client) (data : APIChannel) (guild : Option Guild) : Option Guild :=
  guild.orElse fun _ => data.guild_id.bind fun gid => alGet client.guilds gid

/-- Line 71, `channel.parent?.threads.cache.set(channel.id, channel)`.
Modelled from the spec: `channel.parent` (a getter of the `ThreadChannel`
class, not under `src/`) navigates from the thread instance to its parent
channel through the owning guild's channel cache (§6); if the parent is not
resolvable the optional chain does nothing. -/
def registerThread (g : Guild) (channel : Channel) : Guild :=
  match channel.parent_id with
  | none => g
  | some pid =>
    match g.channels with
    | none => g
    | some cache =>
      match alGet cache pid with
      | none => g
      | some _ =>
        { g with
          channels := some (alUpdate cache pid fun p =>
            p.setThreads (alSet p.threads channel.id channel)) }

/-- Line 84: `guild.channels?.cache.set(channel.id, channel)`. -/
def setGuildChannel (g : Guild) (channel : Channel) : Guild :=
  match g.channels with
  | none => g
  | some cache => { g with channels := some (alSet cache channel.id channel) }

/-- The outcome of a `createChannel` call: the returned channel (line 87,
`undefined` = `none`) together with the post-call state of the client and
of the supplied guild argument (in JS these are mutated in place). -/
structure CreateChannelResult where
  channel : Option Channel
  client : Client
  guild : Option Guild

/-- Writing the mutated resolved guild back to where it lives: the supplied
`guild` argument when one was given, else the client's guild cache slot it
was read from (in JS this is reference mutation, not a copy). -/
def writeBack (client : Client) (data : APIChannel) (guildArg : Option Guild)
    (g : Guild) (channel : Option Channel) : CreateChannelResult :=
  match guildArg with
  | some _ => { channel := channel, client := client, guild := some g }
  | none =>
    match data.guild_id with
    | some gid =>
      { channel := channel
        client := { guilds := alUpdate client.guilds gid fun _ => g }
        guild := none }
    | none => { channel := channel, client := client, guild := none }

/-- Lines 34–88: the channel factory.

* Line 36: `!data.guild_id && !guild` — user-scoped classification.
* Lines 37–41: DM / PartialGroupDM disambiguation.
* Line 43: guild resolution (`resolveGuild`).
* Line 45: `if (guild || allowUnknownGuild)`.
* Lines 46–83: dispatch on the discriminator (`guildVariantOf`); the thread
  case additionally registers into the parent's thread cache when
  `allowUnknownGuild` is falsy (line 71).
* Line 84: registration into the guild's channel cache when a channel was
  constructed and `allowUnknownGuild` is falsy.
* Line 87: return the constructed channel or `undefined`. -/
def createChannel (client : Client) (data : APIChannel) (guild : Option Guild)
    (extras : CreateChannelOptions) : CreateChannelResult :=
  let allowUnknownGuild := extras.allowUnknownGuild.getD false
  if data.guild_id.isNone && guild.isNone then
    if (data.recipients.isSome = true ∧ data.type ≠ ChannelType.GroupDM)
        ∨ data.type = ChannelType.DM then
      { channel := some (construct .dm data), client := client, guild := guild }
    else if data.type = ChannelType.GroupDM then
      { channel := some (construct .groupDM data), client := client, guild := guild }
    else
      { channel := none, client := client, guild := guild }
  else
    let resolved := resolveGuild client data guild
    if resolved.isSome = true ∨ allowUnknownGuild = true then
      match guildVariantOf data.type with
      | none => { channel := none, client := client, guild := guild }
      | some kind =>
        let channel := construct kind data
        if allowUnknownGuild then
          -- lines 71 and 84 are both skipped: no cache mutation
          { channel := some channel, client := client, guild := guild }
        else
          match resolved with
          | some g =>
            let g1 := if isThreadType data.type then registerThread g channel else g
            let g2 := setGuildChannel g1 channel
            writeBack client data guild g2 (some channel)
          | none =>
            -- unreachable: `!allowUnknownGuild` forces `resolved.isSome` here
            { channel := some channel, client := client, guild := guild }
    else
      { channel := none, client := client, guild := guild }

/-- Wire shape of a default-reaction emoji: `{emoji_id, emoji_name}`. -/
structure APIGuildForumDefaultReactionEmoji where
  emoji_id : Option Nat
  emoji_name : Option String
deriving DecidableEq, Repr

/-- Application shape of a default-reaction emoji: `{id, name}`. -/
structure DefaultReactionEmoji where
  id : Option Nat
  name : Option String
deriving DecidableEq, Repr

/-- Lines 134–139: pure field rename wire → app. -/
def transformAPIGuildDefaultReaction
    (defaultReaction : APIGuildForumDefaultReactionEmoji) : DefaultReactionEmoji :=
  { id := defaultReaction.emoji_id
    name := defaultReaction.emoji_name }

/-- Lines 148–153: pure field rename app → wire. -/
def transformGuildDefaultReaction
    (defaultReaction : DefaultReactionEmoji) : APIGuildForumDefaultReactionEmoji :=
  { emoji_id := defaultReaction.id
    emoji_name := defaultReaction.name }

/-! ## Cache lemmas -/

/-- `writeBack` passes the constructed channel through unchanged. -/
theorem writeBack_channel (client : Client) (data : APIChannel) (guildArg : Option Guild)
    (g : Guild) (channel : Option Channel) :
    (writeBack client data guildArg g channel).channel = channel := by
  unfold writeBack
  cases guildArg with
  | some gg => rfl
  | none => cases data.guild_id <;> rfl

/-! ## Claims about the schema transcoder -/

/-- Claim C3: the application-shaped result of `transformAPIGuildForumTag`
has a non-null `emoji` field iff at least one of `emoji_id`/`emoji_name` is
present on the wire record; apart from this null-collapse the transform is a
pure, total field remapping (it preserves `id`, `name`, `moderated`, and the
emoji sub-object carries exactly the wire pair). -/
theorem transformAPIGuildForumTag_spec (tag : APIGuildForumTag) :
    ((transformAPIGuildForumTag tag).emoji ≠ none ↔
      (tag.emoji_id.isSome = true ∨ tag.emoji_name.isSome = true)) ∧
    (transformAPIGuildForumTag tag).id = tag.id ∧
    (transformAPIGuildForumTag tag).name = tag.name ∧
    (transformAPIGuildForumTag tag).moderated = tag.moderated ∧
    ∀ e ∈ (transformAPIGuildForumTag tag).emoji,
      e.id = tag.emoji_id ∧ e.name = tag.emoji_name := by
  obtain ⟨i, n, m, ei, en⟩ := tag
  cases ei <;> cases en <;>
    simp [transformAPIGuildForumTag]

/-- Concrete instance of `transformAPIGuildForumTag_spec`. -/
theorem transformAPIGuildForumTag_spec_witness :
    ((transformAPIGuildForumTag ⟨1, "news", true, some 2, none⟩).emoji ≠ none ↔
      (((some 2 : Option Nat)).isSome = true ∨ ((none : Option String)).isSome = true)) ∧
    (transformAPIGuildForumTag ⟨1, "news", true, some 2, none⟩).id = 1 ∧
    (transformAPIGuildForumTag ⟨1, "news", true, some 2, none⟩).name = "news" ∧
    (transformAPIGuildForumTag ⟨1, "news", true, some 2, none⟩).moderated = true ∧
    ∀ e ∈ (transformAPIGuildForumTag ⟨1, "news", true, some 2, none⟩).emoji,
      e.id = some 2 ∧ e.name = none :=
  transformAPIGuildForumTag_spec ⟨1, "news", true, some 2, none⟩

/-- Claim C7: wire-side round-trip of the forum-tag transcoder: identity on
tags with both emoji fields populated; for tags with both null, the
round-trip yields the normalized wire form with `emoji_id`/`emoji_name`
null. -/
theorem forumTag_roundTrip (t : APIGuildForumTag) :
    (t.emoji_id.isSome = true → t.emoji_name.isSome = true →
      transformGuildForumTag (transformAPIGuildForumTag t) = t) ∧
    (t.emoji_id = none → t.emoji_name = none →
      transformGuildForumTag (transformAPIGuildForumTag t) =
        { id := t.id, name := t.name, moderated := t.moderated,
          emoji_id := none, emoji_name := none }) := by
  obtain ⟨i, n, m, ei, en⟩ := t
  cases ei <;> cases en <;>
    simp [transformAPIGuildForumTag, transformGuildForumTag]

/-- Concrete instances of `forumTag_roundTrip`: a fully populated tag
round-trips to itself, a both-null tag to the normalized form. -/
theorem forumTag_roundTrip_witness :
    transformGuildForumTag (transformAPIGuildForumTag ⟨1, "help", true, some 2, some "⭐"⟩)
        = ⟨1, "help", true, some 2, some "⭐"⟩ ∧
    transformGuildForumTag (transformAPIGuildForumTag ⟨1, "help", false, none, none⟩)
        = ⟨1, "help", false, none, none⟩ :=
  ⟨(forumTag_roundTrip ⟨1, "help", true, some 2, some "⭐"⟩).1 rfl rfl,
   (forumTag_roundTrip ⟨1, "help", false, none, none⟩).2 rfl rfl⟩

/-- Claim C9: the default-reaction transcoder is a pure field renaming with
no conditional collapse; both round-trips are the identity on every record,
nulls included. -/
theorem defaultReaction_roundTrip :
    (∀ r : APIGuildForumDefaultReactionEmoji,
      transformGuildDefaultReaction (transformAPIGuildDefaultReaction r) = r) ∧
    (∀ x : DefaultReactionEmoji,
      transformAPIGuildDefaultReaction (transformGuildDefaultReaction x) = x) :=
  ⟨fun _ => rfl, fun _ => rfl⟩

/-! ## Claims about the channel factory -/

/-- Claim C10: the only property of the options bag `createChannel` consults
is `allowUnknownGuild` (line 34 destructures exactly that key): two calls
whose bags agree on it — whatever else they carry, e.g.
`allowFromUnknownGuild` — produce the same result and the same cache
effects. -/
theorem createChannel_options_agree (client : Client) (data : APIChannel)
    (guild : Option Guild) (o1 o2 : CreateChannelOptions)
    (h : o1.allowUnknownGuild = o2.allowUnknownGuild) :
    createChannel client data guild o1 = createChannel client data guild o2 := by
  unfold createChannel
  rw [h]

/-- Concrete instance of `createChannel_options_agree`: a bag additionally
carrying `allowFromUnknownGuild := true` behaves like one without it. -/
theorem createChannel_options_agree_witness :
    createChannel ⟨[]⟩ { id := 1, type := 0, guild_id := some 5 } none
        { allowUnknownGuild := some true, allowFromUnknownGuild := some true } =
      createChannel ⟨[]⟩ { id := 1, type := 0, guild_id := some 5 } none
        { allowUnknownGuild := some true } :=
  createChannel_options_agree ⟨[]⟩ { id := 1, type := 0, guild_id := some 5 } none
    { allowUnknownGuild := some true, allowFromUnknownGuild := some true }
    { allowUnknownGuild := some true } rfl

theorem construct_kind (kind : ChannelKind) (data : APIChannel) :
    (construct kind data).kind = kind := rfl

theorem construct_type (kind : ChannelKind) (data : APIChannel) :
    (construct kind data).type = data.type := rfl

theorem construct_threads (kind : ChannelKind) (data : APIChannel) :
    (construct kind data).threads = [] := rfl

/-- A call that resolves a guild is in the guild-scoped branch of line 36. -/
theorem branch_false_of_resolve (client : Client) (data : APIChannel)
    (guild : Option Guild) (g : Guild)
    (hg : resolveGuild client data guild = some g) :
    (data.guild_id.isNone && guild.isNone) = false := by
  cases hgid : data.guild_id <;> cases hga : guild <;>
    simp_all [resolveGuild, Option.orElse]

/-- With no supplied guild, a `guild_id` that misses the client's guild
cache resolves to nothing. -/
theorem resolveGuild_none (client : Client) (data : APIChannel) (gid : Nat)
    (hgid : data.guild_id = some gid) (hmiss : alGet client.guilds gid = none) :
    resolveGuild client data none = none := by
  simp [resolveGuild, Option.orElse, hgid, hmiss]

/-- Claim C1: for every payload whose discriminator is one of the eleven
recognized guild-scoped values and for which a guild is resolvable (supplied,
or found in the client's guild cache by the payload's `guild_id`),
`createChannel` returns a non-absent instance of exactly the class the
switch maps to that discriminator, and the instance's identifier (and
stored discriminator) equal the payload's. -/
theorem createChannel_guild_dispatch (client : Client) (data : APIChannel)
    (guildArg : Option Guild) (extras : CreateChannelOptions)
    (kind : ChannelKind) (g : Guild)
    (hk : guildVariantOf data.type = some kind)
    (hg : resolveGuild client data guildArg = some g) :
    ∃ ch, (createChannel client data guildArg extras).channel = some ch ∧
      ch.kind = kind ∧ ch.id = data.id ∧ ch.type = data.type := by
  refine ⟨construct kind data, ?_, rfl, rfl, rfl⟩
  have hbr := branch_false_of_resolve client data guildArg g hg
  unfold createChannel
  simp only [hbr, Bool.false_eq_true, if_false, hg, hk, Option.isSome_some, true_or, if_true]
  cases hA : extras.allowUnknownGuild.getD false with
  | false => simp [hA, writeBack_channel]
  | true => simp [hA]

/-- Concrete instance of `createChannel_guild_dispatch`. -/
theorem createChannel_guild_dispatch_witness :
    ∃ ch, (createChannel ⟨[(5, ⟨5, some []⟩)]⟩ { id := 1, type := 0, guild_id := some 5 }
        none {}).channel = some ch ∧
      ch.kind = ChannelKind.text ∧ ch.id = 1 ∧ ch.type = 0 :=
  createChannel_guild_dispatch ⟨[(5, ⟨5, some []⟩)]⟩
    { id := 1, type := 0, guild_id := some 5 } none {} ChannelKind.text ⟨5, some []⟩ rfl rfl

/-- Claim C2: for a payload with no guild identifier and no supplied parent:
if it has a `recipients` field and its discriminator is not GroupDM, or its
discriminator is DM, the result is a DM instance; else if the discriminator
is GroupDM, the result is a PartialGroupDM instance.  In particular a
payload with `recipients` set but an unrelated discriminator resolves to
DM. -/
theorem createChannel_userScoped (client : Client) (data : APIChannel)
    (extras : CreateChannelOptions) (hgid : data.guild_id = none) :
    (((data.recipients.isSome = true ∧ data.type ≠ ChannelType.GroupDM)
        ∨ data.type = ChannelType.DM) →
      (createChannel client data none extras).channel = some (construct .dm data)) ∧
    (data.type = ChannelType.GroupDM →
      (createChannel client data none extras).channel = some (construct .groupDM data)) := by
  constructor
  · intro hcond
    unfold createChannel
    rw [hgid]
    simp only [Option.isNone_none, Bool.and_self, if_true]
    rw [if_pos hcond]
  · intro hGroup
    have hnot : ¬((data.recipients.isSome = true ∧ data.type ≠ ChannelType.GroupDM)
        ∨ data.type = ChannelType.DM) := by
      rintro (⟨-, hne⟩ | hdm)
      · exact hne hGroup
      · rw [hGroup] at hdm
        exact absurd hdm (by decide)
    unfold createChannel
    rw [hgid]
    simp only [Option.isNone_none, Bool.and_self, if_true]
    rw [if_neg hnot, if_pos hGroup]

/-- Concrete instances of `createChannel_userScoped`: a payload with
`recipients` and an unrelated discriminator (99) yields a DM instance; a
GroupDM payload yields a PartialGroupDM instance. -/
theorem createChannel_userScoped_witness :
    (createChannel ⟨[]⟩ { id := 7, type := 99, recipients := some [] } none {}).channel
        = some (construct .dm { id := 7, type := 99, recipients := some [] }) ∧
    (createChannel ⟨[]⟩ { id := 8, type := 3 } none {}).channel
        = some (construct .groupDM { id := 8, type := 3 }) :=
  ⟨(createChannel_userScoped ⟨[]⟩ { id := 7, type := 99, recipients := some [] } {} rfl).1
      (Or.inl ⟨rfl, by decide⟩),
   (createChannel_userScoped ⟨[]⟩ { id := 8, type := 3 } {} rfl).2 rfl⟩

/-- Claim C4 as stated is false on the code: the option named
`allowFromUnknownGuild` (the name used by the doc comment, lines 18–23, and
by the spec) is never consulted — line 34 destructures `allowUnknownGuild` —
so passing it `true` with an unresolvable guild still yields an absent
result. -/
theorem createChannel_allowFrom_true_ignored :
    (createChannel ⟨[]⟩ { id := 1, type := 0, guild_id := some 5 } none
        { allowFromUnknownGuild := some true }).channel = none := rfl

/-- Claim C4 (amended: the option the code consults is `allowUnknownGuild`):
for a recognized guild-scoped discriminator with an unresolvable guild and
`allowUnknownGuild` true, `createChannel` returns the constructed instance
of the mapped class and mutates no cache (client state unchanged, no guild
written). -/
theorem createChannel_allowUnknown_constructs (client : Client) (data : APIChannel)
    (extras : CreateChannelOptions) (kind : ChannelKind) (gid : Nat)
    (hk : guildVariantOf data.type = some kind)
    (hgid : data.guild_id = some gid)
    (hmiss : alGet client.guilds gid = none)
    (hallow : extras.allowUnknownGuild = some true) :
    (createChannel client data none extras).channel = some (construct kind data) ∧
    (createChannel client data none extras).client = client ∧
    (createChannel client data none extras).guild = none := by
  have hres := resolveGuild_none client data gid hgid hmiss
  unfold createChannel
  simp [hgid, hres, hk, hallow]

/-- Concrete instance of `createChannel_allowUnknown_constructs`. -/
theorem createChannel_allowUnknown_constructs_witness :
    (createChannel ⟨[]⟩ { id := 1, type := 0, guild_id := some 5 } none
        { allowUnknownGuild := some true }).channel
        = some (construct .text { id := 1, type := 0, guild_id := some 5 }) ∧
    (createChannel ⟨[]⟩ { id := 1, type := 0, guild_id := some 5 } none
        { allowUnknownGuild := some true }).client = ⟨[]⟩ ∧
    (createChannel ⟨[]⟩ { id := 1, type := 0, guild_id := some 5 } none
        { allowUnknownGuild := some true }).guild = none :=
  createChannel_allowUnknown_constructs ⟨[]⟩ { id := 1, type := 0, guild_id := some 5 }
    { allowUnknownGuild := some true } ChannelKind.text 5 rfl rfl rfl rfl

/-- Claim C5 as stated is false on the code: it keys the suppression on the
option named `allowFromUnknownGuild`, which the code never consults; with
`allowFromUnknownGuild := false` but `allowUnknownGuild := true` in the bag,
an unresolvable guild still yields a constructed (non-absent) instance. -/
theorem createChannel_allowFrom_false_ignored :
    ((createChannel ⟨[]⟩ { id := 1, type := 0, guild_id := some 5 } none
        { allowUnknownGuild := some true,
          allowFromUnknownGuild := some false }).channel).isSome = true := rfl

/-- Claim C5 (amended: the option the code consults is `allowUnknownGuild`):
for a guild-scoped discriminator whose guild cannot be resolved, with
`allowUnknownGuild` unset or false, `createChannel` returns an absent
result and mutates no cache. -/
theorem createChannel_unknownGuild_absent (client : Client) (data : APIChannel)
    (extras : CreateChannelOptions) (kind : ChannelKind) (gid : Nat)
    (_hk : guildVariantOf data.type = some kind)
    (hgid : data.guild_id = some gid)
    (hmiss : alGet client.guilds gid = none)
    (hallow : extras.allowUnknownGuild.getD false = false) :
    (createChannel client data none extras).channel = none ∧
    (createChannel client data none extras).client = client ∧
    (createChannel client data none extras).guild = none := by
  have hres := resolveGuild_none client data gid hgid hmiss
  unfold createChannel
  simp [hgid, hres, hallow]

/-- Concrete instance of `createChannel_unknownGuild_absent`. -/
theorem createChannel_unknownGuild_absent_witness :
    (createChannel ⟨[]⟩ { id := 1, type := 0, guild_id := some 5 } none {}).channel = none ∧
    (createChannel ⟨[]⟩ { id := 1, type := 0, guild_id := some 5 } none {}).client = ⟨[]⟩ ∧
    (createChannel ⟨[]⟩ { id := 1, type := 0, guild_id := some 5 } none {}).guild = none :=
  createChannel_unknownGuild_absent ⟨[]⟩ { id := 1, type := 0, guild_id := some 5 } {}
    ChannelKind.text 5 rfl rfl rfl rfl

/-- Claim C8: a payload that reaches the guild-scoped dispatch (a guild
resolved, or `allowUnknownGuild` true) whose discriminator has no case in
the switch yields an absent result and mutates no cache; `createChannel` is
a total function, so no exception is possible. -/
theorem createChannel_unrecognized (client : Client) (data : APIChannel)
    (guild : Option Guild) (extras : CreateChannelOptions)
    (hk : guildVariantOf data.type = none)
    (hbranch : (data.guild_id.isNone && guild.isNone) = false)
    (hdisp : ((resolveGuild client data guild).isSome = true
        ∨ extras.allowUnknownGuild.getD false = true)) :
    (createChannel client data guild extras).channel = none ∧
    (createChannel client data guild extras).client = client ∧
    (createChannel client data guild extras).guild = guild := by
  unfold createChannel
  simp only [hbranch, Bool.false_eq_true, if_false]
  rw [if_pos hdisp]
  simp [hk]

/-- Concrete instance of `createChannel_unrecognized` at the unknown
discriminator 7 with a resolvable guild. -/
theorem createChannel_unrecognized_witness :
    (createChannel ⟨[(5, ⟨5, some []⟩)]⟩ { id := 1, type := 7, guild_id := some 5 }
        none {}).channel = none ∧
    (createChannel ⟨[(5, ⟨5, some []⟩)]⟩ { id := 1, type := 7, guild_id := some 5 }
        none {}).client = ⟨[(5, ⟨5, some []⟩)]⟩ ∧
    (createChannel ⟨[(5, ⟨5, some []⟩)]⟩ { id := 1, type := 7, guild_id := some 5 }
        none {}).guild = none :=
  createChannel_unrecognized ⟨[(5, ⟨5, some []⟩)]⟩ { id := 1, type := 7, guild_id := some 5 }
    none {} rfl rfl (Or.inl rfl)

end DiscordJS
